import Mathlib

/-!
Shallow embedding of the authentication core of the repository
(backend/utils/auth_utils.py, backend/services/auth_service.py,
backend/api/deps.py, backend/core/settings.py, backend/schemas/auth_schemas.py).

Modelling conventions:
* JWT payloads (Python `dict[str, Any]`) are association lists of string keys
  and JSON values; `dictGet` and `dictSet` mirror `dict.__getitem__` /
  `dict.update` for one key (update of an existing key keeps its position,
  a new key is appended, matching Python insertion-order semantics).
* A signed token (the output of `jose.jwt.encode`) is modelled as the triple
  of its payload, the secret it was signed with and the algorithm name;
  `jose.jwt.decode` succeeds exactly when the presented secret and algorithm
  match and every claim validation python-jose runs by default passes
  (`jwtClaimsValid`: the expiry check plus the registered-claim checks of
  `_validate_claims` for the argument shape this code uses).
* Clock instants and time deltas are integers (unix seconds); a
  `timedelta(minutes=m)` is `m * 60`, `timedelta(days=d)` is `d * 86400`.
* Python exceptions that the code raises or propagates are the `PyErr` type
  and fallible code returns `PyResult`.
-/

/-- A JSON value as it appears inside a JWT payload. -/
inductive JValue where
  | jstr (s : String) : JValue
  | jint (n : Int) : JValue
  | jnull : JValue
deriving DecidableEq, Repr

/-- A JWT payload: a Python `dict[str, Any]` as an insertion-ordered
association list. -/
abbrev Payload := List (String × JValue)

/-- `dictGet p k` models `p.get(k)`: the value at the first occurrence of
key `k`, or `none`. -/
def dictGet : Payload → String → Option JValue
  | [], _ => none
  | kv :: rest, k => if kv.1 = k then some kv.2 else dictGet rest k

/-- `dictSet p k v` models `p.update({k: v})` on a dict: replace the value at
an existing key in place, append a fresh key at the end. -/
def dictSet : Payload → String → JValue → Payload
  | [], k, v => [(k, v)]
  | kv :: rest, k, v => if kv.1 = k then (k, v) :: rest else kv :: dictSet rest k v

/-- A Python exception as surfaced by the authentication code. -/
inductive PyErr where
  | httpError (status : Nat) (detail : String) : PyErr
  | valueError (msg : String) : PyErr
  | unknownHashError : PyErr
deriving DecidableEq, Repr

/-- Result of a fallible Python call: a value or a raised exception. -/
inductive PyResult (α : Type) where
  | ok (a : α) : PyResult α
  | error (e : PyErr) : PyResult α
deriving DecidableEq, Repr

/-- Whether a `PyResult` is a success. -/
def PyResult.isOk : PyResult α → Bool
  | .ok _ => true
  | .error _ => false

/-- `AuthSettings` from backend/core/settings.py with its source defaults
(each field is environment-overridable, so theorems quantify over the
settings value). Expiry settings are integers as in the source. -/
structure AuthSettings where
  SECRET_KEY : String := "your-secret-key-change-in-production"
  REFRESH_TOKEN_SECRET_KEY : String := "kjnfjnfjdnjnfkjsnfsjnsjdfn"
  ALGORITHM : String := "HS256"
  ACCESS_TOKEN_EXPIRE_MINUTES : Int := 30
  REFRESH_TOKEN_EXPIRE_DAYS : Int := 7
deriving DecidableEq, Repr

/-- `TokenType` from backend/schemas/auth_schemas.py (a str enum with values
"access" and "refresh"). -/
inductive TokenType where
  | access : TokenType
  | refresh : TokenType
deriving DecidableEq, Repr

/-- The string value of a `TokenType` member (it is a `str` enum, so this is
what lands in the JSON payload). -/
def TokenType.toStr : TokenType → String
  | .access => "access"
  | .refresh => "refresh"

/-- `TokenType(x)` on a payload value: succeeds only on the two enum values,
raising (here: `none`) on any other value, matching the enum constructor. -/
def tokenTypeOfValue : Option JValue → Option TokenType
  | some (.jstr "access") => some .access
  | some (.jstr "refresh") => some .refresh
  | _ => none

/-- A signed JWT as produced by `jose.jwt.encode`: the signed payload
together with the signing secret and algorithm (standing in for the
signature, which verifies exactly under the same secret and algorithm). -/
structure Token where
  payload : Payload
  secret : String
  alg : String
deriving DecidableEq, Repr

/-- `jose.jwt.encode(payload, secret, algorithm)`. -/
def jwtEncode (payload : Payload) (secret : String) (alg : String) : Token :=
  ⟨payload, secret, alg⟩

/-- Model of Python `int(x)` as used by python-jose on claim values:
integers convert to themselves, strings convert when they spell a decimal
integer (an optional minus sign and digits; Python additionally strips
surrounding whitespace, an exotic case no token in this development
carries), `null` does not convert. `none` models the raised conversion
error. -/
def jvalueInt? : JValue → Option Int
  | .jint n => some n
  | .jstr x =>
    match x.data with
    | [] => none
    | c :: cs =>
      if c = '-' then
        if cs ≠ [] ∧ cs.all Char.isDigit then
          some (-(cs.foldl (fun n d => 10 * n + ((d.toNat : Int) - 48)) 0))
        else none
      else if (c :: cs).all Char.isDigit then
        some ((c :: cs).foldl (fun n d => 10 * n + ((d.toNat : Int) - 48)) 0)
      else none
  | .jnull => none

/-- python-jose `_validate_claims` apart from the expiry check, for the call
shape used by this code (`jwt.decode(token, secret, algorithms=[...])`: no
`audience`, `issuer`, `subject` or `access_token` argument, default options,
zero leeway). With these arguments jose raises `JWTClaimsError` when: an
`aud` claim is present (no audience to match it against), a present `sub` or
`jti` claim is not a string, a present `iat` or `nbf` claim is not
integer-convertible, or an `at_hash` claim is present (no access token to
compare); a present `nbf` in the future raises `ImmatureSignatureError`.
`iss` is not validated when no issuer is given. -/
def registeredClaimsOk (p : Payload) (now : Int) : Bool :=
  (match dictGet p "nbf" with
   | none => true
   | some v =>
     match jvalueInt? v with
     | some n => decide (n ≤ now)
     | none => false) &&
  (match dictGet p "iat" with
   | none => true
   | some v => (jvalueInt? v).isSome) &&
  decide (dictGet p "aud" = none) &&
  (match dictGet p "sub" with
   | none => true
   | some (.jstr _) => true
   | some _ => false) &&
  (match dictGet p "jti" with
   | none => true
   | some (.jstr _) => true
   | some _ => false) &&
  decide (dictGet p "at_hash" = none)

/-- All claim validations python-jose runs in `jwt.decode` with the call
shape used here: the `exp` claim, when present, must be integer-convertible
and not earlier than `now` (`ExpiredSignatureError` when `exp < now`, zero
leeway; a token without `exp` passes, as `require_exp` defaults to false),
and the other registered claims must pass `registeredClaimsOk`. -/
def jwtClaimsValid (p : Payload) (now : Int) : Bool :=
  (match dictGet p "exp" with
   | none => true
   | some v =>
     match jvalueInt? v with
     | some e => decide (now ≤ e)
     | none => false) &&
  registeredClaimsOk p now

/-- `jose.jwt.decode(token, secret, algorithms=[alg])`: `none` models a
raised `JWTError` (all the claim-validation errors are subclasses). The
signature must verify under `secret` and `alg` and every claim validation of
`jwtClaimsValid` must pass. -/
def jwtDecode (token : Token) (secret : String) (alg : String) (now : Int) : Option Payload :=
  if token.secret = secret ∧ token.alg = alg then
    if jwtClaimsValid token.payload now then some token.payload else none
  else
    none

/-- The effective expiry delta of `create_access_token`: Python tests
`if expires_delta:` by truthiness, and `timedelta(0)` is falsy, so both a
missing and a zero delta fall back to the configured TTL. -/
def accessTokenDelta (s : AuthSettings) (expires_delta : Option Int) : Int :=
  match expires_delta with
  | some d => if d = 0 then s.ACCESS_TOKEN_EXPIRE_MINUTES * 60 else d
  | none => s.ACCESS_TOKEN_EXPIRE_MINUTES * 60

/-- `create_access_token(data, expires_delta)` from auth_utils.py, with the
clock `now` passed explicitly (`datetime.now(timezone.utc)`). -/
def create_access_token (s : AuthSettings) (data : Payload) (expires_delta : Option Int)
    (now : Int) : Token :=
  let expire : Int := now + accessTokenDelta s expires_delta
  let to_encode := dictSet (dictSet data "exp" (.jint expire)) "type" (.jstr TokenType.access.toStr)
  jwtEncode to_encode s.SECRET_KEY s.ALGORITHM

/-- `create_refresh_token(data)` from auth_utils.py, with the clock passed
explicitly. -/
def create_refresh_token (s : AuthSettings) (data : Payload) (now : Int) : Token :=
  let expire : Int := now + s.REFRESH_TOKEN_EXPIRE_DAYS * 86400
  let to_encode := dictSet (dictSet data "exp" (.jint expire)) "type" (.jstr TokenType.refresh.toStr)
  jwtEncode to_encode s.REFRESH_TOKEN_SECRET_KEY s.ALGORITHM

/-- `decode_token(token, secret)` from auth_utils.py: any `JWTError` becomes
`ValueError("Invalid token")`. -/
def decode_token (s : AuthSettings) (token : Token) (secret : String) (now : Int) :
    PyResult Payload :=
  match jwtDecode token secret s.ALGORITHM now with
  | some payload => .ok payload
  | none => .error (.valueError "Invalid token")

/-- `get_token_payload(token, token_type)` from auth_utils.py: pick the secret
by the expected kind, decode, then require the embedded `type` claim to parse
as a `TokenType` equal to the expected kind. -/
def get_token_payload (s : AuthSettings) (token : Token) (token_type : TokenType)
    (now : Int) : PyResult Payload :=
  match decode_token s token
      (if token_type = TokenType.access then s.SECRET_KEY else s.REFRESH_TOKEN_SECRET_KEY)
      now with
  | .error e => .error e
  | .ok payload =>
    match tokenTypeOfValue (dictGet payload "type") with
    | none => .error (.valueError "Invalid token type in payload")
    | some payload_token_type =>
      if payload_token_type ≠ token_type then .error (.valueError "Token type mismatch")
      else .ok payload

/-- The persisted `User` entity. The fields are those used by the
authentication flows. The SQLAlchemy model module (models/user_models.py) is
not part of the analysed sources; modelled from the spec: a user record has a
unique UUID id, unique email, unique username, a password hash, an optional
display name and an active flag. Ids are modelled as naturals standing in for
UUIDs. -/
structure User where
  id : Nat
  email : String
  username : String
  hashed_password : String
  full_name : Option String := none
  is_active : Bool := true
deriving DecidableEq, Repr

/-- The user store: the committed rows of the users table. The uniqueness of
email and username is a database constraint; lookups assume it (SQLAlchemy
`scalar_one_or_none` returns the single match and the store keeps at most
one). -/
abbrev UserStore := List User

/-- `UserRegister` from auth_schemas.py. -/
structure UserRegister where
  email : String
  username : String
  password : String
  full_name : Option String := none
deriving DecidableEq, Repr

/-- `UserLogin` from auth_schemas.py. -/
structure UserLogin where
  email_or_username : String
  password : String
deriving DecidableEq, Repr

/-- `TokenResponse` from auth_schemas.py (token fields hold the encoded
tokens). -/
structure TokenResponse where
  access_token : Token
  refresh_token : Token
  token_type : String := "bearer"
deriving DecidableEq, Repr

/-- Model of the external passlib `CryptContext(schemes=["bcrypt"])` digest
format: a well-formed digest is one the context can identify as bcrypt
output. The model digest embeds the password after the scheme prefix; the
claims proved here depend only on digests being recognisable and on
verification succeeding exactly for the hashed password, not on real bcrypt
math. -/
def isBcryptDigest (digest : String) : Bool := "$2b$12$".data.isPrefixOf digest.data

/-- `get_password_hash(password)` from auth_utils.py
(`pwd_context.hash`, modelled deterministically). -/
def get_password_hash (password : String) : String := "$2b$12$" ++ password

/-- Model of passlib `CryptContext.verify(secret, hash)`: raises
`UnknownHashError` (a `ValueError` subclass) when the hash cannot be
identified as any configured scheme, otherwise returns the boolean
comparison result. -/
def cryptContextVerify (secret digest : String) : PyResult Bool :=
  if isBcryptDigest digest then .ok (digest = get_password_hash secret)
  else .error .unknownHashError

/-- `verify_password(plain_password, hashed_password)` from auth_utils.py:
a direct delegation to `pwd_context.verify`, catching nothing. -/
def verify_password (plain_password hashed_password : String) : PyResult Bool :=
  cryptContextVerify plain_password hashed_password

/-- Model of `uuid.UUID(user_id)` over natural-number ids: parsing the
decimal representation succeeds, anything else (the empty string included)
raises `ValueError`, modelled as `none`. -/
def uuidOfString (s : String) : Option Nat :=
  if s.data ≠ [] ∧ s.data.all Char.isDigit then
    some (s.data.foldl (fun n c => 10 * n + (c.toNat - 48)) 0)
  else none

/-- `AuthService.get_user_by_email`. -/
def get_user_by_email (db : UserStore) (email : String) : Option User :=
  db.find? (fun u => u.email = email)

/-- `AuthService.get_user_by_username`. -/
def get_user_by_username (db : UserStore) (username : String) : Option User :=
  db.find? (fun u => u.username = username)

/-- `AuthService.get_user_by_id`. -/
def get_user_by_id (db : UserStore) (user_id : Nat) : Option User :=
  db.find? (fun u => u.id = user_id)

/-- `AuthService._generate_tokens_for_user`. -/
def generate_tokens_for_user (s : AuthSettings) (user : User) (now : Int) : TokenResponse :=
  let data : Payload := [("sub", .jstr (toString user.id)), ("email", .jstr user.email)]
  { access_token := create_access_token s data (some (s.ACCESS_TOKEN_EXPIRE_MINUTES * 60)) now
    refresh_token := create_refresh_token s data now
    token_type := "bearer" }

/-- `AuthService.register_user`, state-passing. `extra` are rows committed by
concurrent requests between the pre-checks and this request's insert (the
pre-checks query the store as of `db`; the insert-time uniqueness constraint
sees `db ++ extra`); `newId` is the id the database assigns to the new row.
On the `IntegrityError` path the transaction is rolled back, so the committed
state keeps none of this request's data. Returns the Python result together
with the committed store after the call. -/
def register_user (db : UserStore) (extra : UserStore) (user_data : UserRegister)
    (newId : Nat) : PyResult User × UserStore :=
  match get_user_by_email db user_data.email with
  | some _ => (.error (.httpError 400 "Email already registered"), db ++ extra)
  | none =>
    match get_user_by_username db user_data.username with
    | some _ => (.error (.httpError 400 "Username already taken"), db ++ extra)
    | none =>
      let db_user : User :=
        { id := newId
          email := user_data.email
          username := user_data.username
          hashed_password := get_password_hash user_data.password
          full_name := user_data.full_name
          is_active := true }
      let committed := db ++ extra
      if committed.any (fun v => v.email = db_user.email ∨ v.username = db_user.username) then
        (.error (.httpError 400 "User with this email or username already exists"), committed)
      else
        (.ok db_user, committed ++ [db_user])

/-- `AuthService.authenticate_user`: resolve by email first, then by
username; `none` for unknown identifier and for a failed password check alike
(an exception from the hasher propagates). -/
def authenticate_user (db : UserStore) (email_or_username password : String) :
    PyResult (Option User) :=
  let user? :=
    match get_user_by_email db email_or_username with
    | some u => some u
    | none => get_user_by_username db email_or_username
  match user? with
  | none => .ok none
  | some user =>
    match verify_password password user.hashed_password with
    | .error e => .error e
    | .ok b => if b then .ok (some user) else .ok none

/-- `AuthService.login_user`. -/
def login_user (s : AuthSettings) (db : UserStore) (login_data : UserLogin) (now : Int) :
    PyResult TokenResponse :=
  match authenticate_user db login_data.email_or_username login_data.password with
  | .error e => .error e
  | .ok none =>
    .error (.httpError 401 "Incorrect email/username or password")
  | .ok (some user) =>
    if user.is_active = false then .error (.httpError 403 "Inactive user")
    else .ok (generate_tokens_for_user s user now)

/-- The 401 raised throughout `AuthService.refresh_access_token`. -/
def refreshCredentialsException : PyErr :=
  .httpError 401 "Could not validate refresh token"

/-- `AuthService.refresh_access_token`: parse as REFRESH, require a non-empty
string subject, parse it as a UUID, require an existing active user, then
mint a new access token and echo the presented refresh token back. -/
def refresh_access_token (s : AuthSettings) (db : UserStore) (refresh_token : Token)
    (now : Int) : PyResult TokenResponse :=
  match get_token_payload s refresh_token TokenType.refresh now with
  | .error _ => .error refreshCredentialsException
  | .ok payload =>
    match dictGet payload "sub" with
    | some (.jstr user_id) =>
      if user_id = "" then .error refreshCredentialsException
      else
        match uuidOfString user_id with
        | none => .error refreshCredentialsException
        | some user_uuid =>
          match get_user_by_id db user_uuid with
          | none => .error refreshCredentialsException
          | some user =>
            if user.is_active = false then .error refreshCredentialsException
            else
              .ok { access_token := create_access_token s
                      [("sub", .jstr (toString user.id)), ("email", .jstr user.email)]
                      (some (s.ACCESS_TOKEN_EXPIRE_MINUTES * 60)) now
                    refresh_token := refresh_token
                    token_type := "bearer" }
    | _ => .error refreshCredentialsException

/-- The 401 raised throughout `get_current_user` in api/deps.py. -/
def credentialsException : PyErr :=
  .httpError 401 "Could not validate credentials"

/-- `get_current_user` from api/deps.py: parse as ACCESS, require a string
subject (`payload.get("sub")` with `isinstance(user_id, str)` — the empty
string passes this check and fails only at UUID parsing), then resolve the
user by id. Every failure raises the same 401. -/
def get_current_user (s : AuthSettings) (db : UserStore) (token : Token) (now : Int) :
    PyResult User :=
  match get_token_payload s token TokenType.access now with
  | .error _ => .error credentialsException
  | .ok payload =>
    match dictGet payload "sub" with
    | some (.jstr user_id) =>
      match uuidOfString user_id with
      | none => .error credentialsException
      | some user_uuid =>
        match get_user_by_id db user_uuid with
        | none => .error credentialsException
        | some user => .ok user
    | _ => .error credentialsException

/-- `get_current_active_user` from api/deps.py. -/
def get_current_active_user (current_user : User) : PyResult User :=
  if current_user.is_active = false then .error (.httpError 403 "Inactive user")
  else .ok current_user

/-- The identify chain on protected endpoints: the FastAPI dependency
`get_current_active_user` applied to the result of `get_current_user`
(a failure of the inner dependency propagates). -/
def identify_user (s : AuthSettings) (db : UserStore) (token : Token) (now : Int) :
    PyResult User :=
  match get_current_user s db token now with
  | .error e => .error e
  | .ok user => get_current_active_user user

/-- The subject claim of a parse result, when the parse succeeded. -/
def payloadSubject : PyResult Payload → Option JValue
  | .ok p => dictGet p "sub"
  | .error _ => none

/-- The settings instance built from the source defaults
(`auth_settings = AuthSettings()`). -/
def s0 : AuthSettings := {}

/-- The disabled user of the login-order witness. -/
def userC3 : User :=
  { id := 1
    email := "d@x.com"
    username := "dis"
    hashed_password := get_password_hash "password123"
    is_active := false }

/-- A token with a valid signature under the access secret and a valid type
claim, but no subject claim at all. -/
def tokenNoSub : Token := ⟨[("type", .jstr "access")], s0.SECRET_KEY, s0.ALGORITHM⟩

/-- Whether a subject claim value is absent, not a string, or the empty
string. -/
def badSubjectClaim : Option JValue → Bool
  | some (.jstr x) => x == ""
  | _ => true

/-- Whether a JSON value is not a string (an `isinstance(value, str)` test
failing). -/
def nonStringValue : JValue → Bool
  | .jstr _ => false
  | _ => true

/-- A token with a valid signature under the access secret and a valid type
claim, but an integer subject claim. -/
def tokenIntSub : Token :=
  ⟨[("type", .jstr "access"), ("sub", .jint 5)], s0.SECRET_KEY, s0.ALGORITHM⟩

/-- The disabled user behind the identify-flow witness. -/
def userC8 : User :=
  { id := 1
    email := "c8@x.com"
    username := "ceight"
    hashed_password := get_password_hash "pw"
    is_active := false }

/-- A valid access token for `userC8`. -/
def tokenC8 : Token := create_access_token s0 [("sub", .jstr "1")] none 0

/-- An existing user occupying email "a@x.com" and username "alice". -/
def userC9 : User :=
  { id := 1
    email := "a@x.com"
    username := "alice"
    hashed_password := get_password_hash "pw123456"
    is_active := true }

/-- Extract the token response from a successful result (dummy on error;
the theorems using this also assert success, so the dummy is never what is
compared). -/
def okTokenResponse : PyResult TokenResponse → TokenResponse
  | .ok tr => tr
  | .error _ =>
    { access_token := ⟨[], "", ""⟩, refresh_token := ⟨[], "", ""⟩, token_type := "" }

/-- The active user of the refresh-flow scenarios. -/
def userC6 : User :=
  { id := 7
    email := "a6@x.com"
    username := "alice6"
    hashed_password := get_password_hash "password123"
    is_active := true }

/-- Login of `userC6` at clock instant 0. -/
def loginResultC6 : PyResult TokenResponse :=
  login_user s0 [userC6] ⟨"alice6", "password123"⟩ 0

/-- Refresh with the refresh token from that login, still at clock
instant 0. -/
def refreshResultC6 : PyResult TokenResponse :=
  refresh_access_token s0 [userC6] (okTokenResponse loginResultC6).refresh_token 0

/-- Refresh with the same refresh token at clock instant 1. -/
def refreshResultC6b : PyResult TokenResponse :=
  refresh_access_token s0 [userC6] (okTokenResponse loginResultC6).refresh_token 1

theorem dictGet_dictSet_same (p : Payload) (k : String) (v : JValue) :
    dictGet (dictSet p k v) k = some v := by
  induction p with
  | nil => simp [dictGet, dictSet]
  | cons kv rest ih =>
    by_cases h : kv.1 = k
    · simp [dictGet, dictSet, h]
    · simp [dictGet, dictSet, h, ih]

theorem dictGet_dictSet_ne (p : Payload) (k k2 : String) (v : JValue) (h : k2 ≠ k) :
    dictGet (dictSet p k v) k2 = dictGet p k2 := by
  have h2 : k ≠ k2 := Ne.symm h
  induction p with
  | nil => simp [dictGet, dictSet, h2]
  | cons kv rest ih =>
    by_cases hk : kv.1 = k
    · simp [dictGet, dictSet, hk, h2]
    · simp [dictGet, dictSet, hk, ih]

theorem create_access_token_exp (s : AuthSettings) (data : Payload)
    (expires_delta : Option Int) (now : Int) :
    dictGet (create_access_token s data expires_delta now).payload "exp" =
      some (.jint (now + accessTokenDelta s expires_delta)) := by
  simp [create_access_token, jwtEncode,
    dictGet_dictSet_ne _ "type" "exp" _ (by decide), dictGet_dictSet_same]

theorem accessTokenDelta_minutes (s : AuthSettings) :
    accessTokenDelta s (some (s.ACCESS_TOKEN_EXPIRE_MINUTES * 60)) =
      s.ACCESS_TOKEN_EXPIRE_MINUTES * 60 := by
  show (if s.ACCESS_TOKEN_EXPIRE_MINUTES * 60 = 0 then s.ACCESS_TOKEN_EXPIRE_MINUTES * 60
    else s.ACCESS_TOKEN_EXPIRE_MINUTES * 60) = s.ACCESS_TOKEN_EXPIRE_MINUTES * 60
  exact ite_self _

theorem accessTokenDelta_nonzero (s : AuthSettings) (d : Int) (h : d ≠ 0) :
    accessTokenDelta s (some d) = d := by
  show (if d = 0 then s.ACCESS_TOKEN_EXPIRE_MINUTES * 60 else d) = d
  rw [if_neg h]

theorem create_access_token_type (s : AuthSettings) (data : Payload)
    (expires_delta : Option Int) (now : Int) :
    dictGet (create_access_token s data expires_delta now).payload "type" =
      some (.jstr "access") := by
  simp [create_access_token, jwtEncode, TokenType.toStr, dictGet_dictSet_same]

theorem create_refresh_token_exp (s : AuthSettings) (data : Payload) (now : Int) :
    dictGet (create_refresh_token s data now).payload "exp" =
      some (.jint (now + s.REFRESH_TOKEN_EXPIRE_DAYS * 86400)) := by
  simp [create_refresh_token, jwtEncode,
    dictGet_dictSet_ne _ "type" "exp" _ (by decide), dictGet_dictSet_same]

theorem create_refresh_token_type (s : AuthSettings) (data : Payload) (now : Int) :
    dictGet (create_refresh_token s data now).payload "type" =
      some (.jstr "refresh") := by
  simp [create_refresh_token, jwtEncode, TokenType.toStr, dictGet_dictSet_same]

theorem jwtDecode_ok (token : Token) (secret alg : String) (now : Int) (p : Payload)
    (h : jwtDecode token secret alg now = some p) : p = token.payload := by
  unfold jwtDecode at h
  split at h
  · split at h
    · simp only [Option.some.injEq] at h
      exact h.symm
    · exact absurd h (by simp)
  · exact absurd h (by simp)

theorem decode_token_ok (s : AuthSettings) (token : Token) (secret : String) (now : Int)
    (p : Payload) (h : decode_token s token secret now = .ok p) : p = token.payload := by
  unfold decode_token at h
  split at h
  · rename_i payload heq
    cases h
    exact jwtDecode_ok token secret s.ALGORITHM now p heq
  · exact absurd h (by simp)

theorem get_token_payload_ok_payload (s : AuthSettings) (token : Token)
    (token_type : TokenType) (now : Int) (p : Payload)
    (h : get_token_payload s token token_type now = .ok p) : p = token.payload := by
  unfold get_token_payload at h
  split at h
  · exact absurd h (by simp)
  · rename_i payload heq
    split at h
    · exact absurd h (by simp)
    · split at h
      · exact absurd h (by simp)
      · cases h
        exact decode_token_ok s token _ now p heq

theorem create_access_token_other_key (s : AuthSettings) (data : Payload)
    (expires_delta : Option Int) (now : Int) (k : String)
    (h1 : k ≠ "exp") (h2 : k ≠ "type") :
    dictGet (create_access_token s data expires_delta now).payload k = dictGet data k := by
  simp [create_access_token, jwtEncode,
    dictGet_dictSet_ne _ "type" k _ h2, dictGet_dictSet_ne _ "exp" k _ h1]

theorem create_refresh_token_other_key (s : AuthSettings) (data : Payload)
    (now : Int) (k : String) (h1 : k ≠ "exp") (h2 : k ≠ "type") :
    dictGet (create_refresh_token s data now).payload k = dictGet data k := by
  simp [create_refresh_token, jwtEncode,
    dictGet_dictSet_ne _ "type" k _ h2, dictGet_dictSet_ne _ "exp" k _ h1]

theorem registeredClaimsOk_create_access (s : AuthSettings) (data : Payload)
    (expires_delta : Option Int) (now v : Int) :
    registeredClaimsOk (create_access_token s data expires_delta now).payload v =
      registeredClaimsOk data v := by
  unfold registeredClaimsOk
  rw [create_access_token_other_key s data expires_delta now "nbf" (by decide) (by decide),
    create_access_token_other_key s data expires_delta now "iat" (by decide) (by decide),
    create_access_token_other_key s data expires_delta now "aud" (by decide) (by decide),
    create_access_token_other_key s data expires_delta now "sub" (by decide) (by decide),
    create_access_token_other_key s data expires_delta now "jti" (by decide) (by decide),
    create_access_token_other_key s data expires_delta now "at_hash" (by decide) (by decide)]

theorem registeredClaimsOk_create_refresh (s : AuthSettings) (data : Payload)
    (now v : Int) :
    registeredClaimsOk (create_refresh_token s data now).payload v =
      registeredClaimsOk data v := by
  unfold registeredClaimsOk
  rw [create_refresh_token_other_key s data now "nbf" (by decide) (by decide),
    create_refresh_token_other_key s data now "iat" (by decide) (by decide),
    create_refresh_token_other_key s data now "aud" (by decide) (by decide),
    create_refresh_token_other_key s data now "sub" (by decide) (by decide),
    create_refresh_token_other_key s data now "jti" (by decide) (by decide),
    create_refresh_token_other_key s data now "at_hash" (by decide) (by decide)]

theorem get_token_payload_wrong_type (s : AuthSettings) (tok : Token) (tt : TokenType)
    (v : Int) (h : tokenTypeOfValue (dictGet tok.payload "type") ≠ some tt) :
    (get_token_payload s tok tt v).isOk = false := by
  unfold get_token_payload
  split
  · rfl
  · rename_i payload heq
    have hp : payload = tok.payload := decode_token_ok s tok _ v payload heq
    subst hp
    split
    · rfl
    · rename_i ptt hty
      split
      · rfl
      · rename_i hne
        exact absurd (not_not.mp hne ▸ hty) h

theorem decode_create_access_fresh (s : AuthSettings) (data : Payload)
    (expires_delta : Option Int) (now v : Int)
    (hreg : registeredClaimsOk data v = true)
    (h : v ≤ now + accessTokenDelta s expires_delta) :
    decode_token s (create_access_token s data expires_delta now) s.SECRET_KEY v =
      .ok (create_access_token s data expires_delta now).payload := by
  unfold decode_token jwtDecode jwtClaimsValid
  rw [create_access_token_exp, registeredClaimsOk_create_access]
  have hsec : (create_access_token s data expires_delta now).secret = s.SECRET_KEY := rfl
  have halg : (create_access_token s data expires_delta now).alg = s.ALGORITHM := rfl
  simp [hsec, halg, jvalueInt?, h, hreg]

theorem decode_create_refresh_fresh (s : AuthSettings) (data : Payload) (now v : Int)
    (hreg : registeredClaimsOk data v = true)
    (h : v ≤ now + s.REFRESH_TOKEN_EXPIRE_DAYS * 86400) :
    decode_token s (create_refresh_token s data now) s.REFRESH_TOKEN_SECRET_KEY v =
      .ok (create_refresh_token s data now).payload := by
  unfold decode_token jwtDecode jwtClaimsValid
  rw [create_refresh_token_exp, registeredClaimsOk_create_refresh]
  have hsec : (create_refresh_token s data now).secret = s.REFRESH_TOKEN_SECRET_KEY := rfl
  have halg : (create_refresh_token s data now).alg = s.ALGORITHM := rfl
  simp [hsec, halg, jvalueInt?, h, hreg]

theorem get_token_payload_create_access_ok (s : AuthSettings) (data : Payload)
    (expires_delta : Option Int) (now v : Int)
    (hreg : registeredClaimsOk data v = true)
    (h : v ≤ now + accessTokenDelta s expires_delta) :
    get_token_payload s (create_access_token s data expires_delta now) TokenType.access v =
      .ok (create_access_token s data expires_delta now).payload := by
  unfold get_token_payload
  rw [if_pos rfl, decode_create_access_fresh s data expires_delta now v hreg h]
  simp [create_access_token_type, tokenTypeOfValue]

theorem get_token_payload_create_refresh_ok (s : AuthSettings) (data : Payload) (now v : Int)
    (hreg : registeredClaimsOk data v = true)
    (h : v ≤ now + s.REFRESH_TOKEN_EXPIRE_DAYS * 86400) :
    get_token_payload s (create_refresh_token s data now) TokenType.refresh v =
      .ok (create_refresh_token s data now).payload := by
  unfold get_token_payload
  rw [if_neg (by decide), decode_create_refresh_fresh s data now v hreg h]
  simp [create_refresh_token_type, tokenTypeOfValue]

theorem get_token_payload_create_access_expired (s : AuthSettings) (data : Payload)
    (expires_delta : Option Int) (now v : Int)
    (h : now + accessTokenDelta s expires_delta < v) :
    (get_token_payload s (create_access_token s data expires_delta now)
      TokenType.access v).isOk = false := by
  unfold get_token_payload decode_token jwtDecode jwtClaimsValid
  rw [create_access_token_exp]
  have hsec : (create_access_token s data expires_delta now).secret = s.SECRET_KEY := rfl
  have halg : (create_access_token s data expires_delta now).alg = s.ALGORITHM := rfl
  simp [hsec, halg, jvalueInt?, not_le.mpr h, PyResult.isOk]

theorem get_token_payload_invalid_claims (s : AuthSettings) (tok : Token)
    (tt : TokenType) (now : Int) (h : jwtClaimsValid tok.payload now = false) :
    (get_token_payload s tok tt now).isOk = false := by
  unfold get_token_payload decode_token jwtDecode
  by_cases hsec : tok.secret =
      (if tt = TokenType.access then s.SECRET_KEY else s.REFRESH_TOKEN_SECRET_KEY) ∧
      tok.alg = s.ALGORITHM
  · simp [hsec, h, PyResult.isOk]
  · simp [hsec, PyResult.isOk]

/-- C1: a token issued for kind ACCESS parsed with expected kind REFRESH
fails, and symmetrically — unconditionally, for every claims payload and
every settings value, also when the two secrets coincide: `get_token_payload`
selects the secret by the expected kind and additionally requires the
embedded type claim to equal the expected kind. The last two conjuncts show
the "even though the signature is valid under the secret for its own kind"
part: within the TTL, and for extra claims that pass jose's default
registered-claim validation, the same token decodes successfully under its
own secret. -/
theorem wrong_kind_parse_fails (s : AuthSettings) (data data2 : Payload)
    (expires_delta : Option Int) (now v : Int) :
    (get_token_payload s (create_access_token s data expires_delta now)
      TokenType.refresh v).isOk = false ∧
    (get_token_payload s (create_refresh_token s data2 now)
      TokenType.access v).isOk = false ∧
    (registeredClaimsOk data v = true →
      v ≤ now + accessTokenDelta s expires_delta →
      (decode_token s (create_access_token s data expires_delta now)
        s.SECRET_KEY v).isOk = true) ∧
    (registeredClaimsOk data2 v = true →
      v ≤ now + s.REFRESH_TOKEN_EXPIRE_DAYS * 86400 →
      (decode_token s (create_refresh_token s data2 now)
        s.REFRESH_TOKEN_SECRET_KEY v).isOk = true) := by
  refine ⟨?_, ?_, ?_, ?_⟩
  · apply get_token_payload_wrong_type
    rw [create_access_token_type]
    decide
  · apply get_token_payload_wrong_type
    rw [create_refresh_token_type]
    decide
  · intro hreg h
    rw [decode_create_access_fresh s data expires_delta now v hreg h]
    rfl
  · intro hreg h
    rw [decode_create_refresh_fresh s data2 now v hreg h]
    rfl

theorem wrong_kind_parse_fails_witness :
    (get_token_payload s0 (create_access_token s0 [] none 0)
      TokenType.refresh 0).isOk = false ∧
    (get_token_payload s0 (create_refresh_token s0 [] 0)
      TokenType.access 0).isOk = false ∧
    (decode_token s0 (create_access_token s0 [] none 0) s0.SECRET_KEY 0).isOk = true ∧
    (decode_token s0 (create_refresh_token s0 [] 0)
      s0.REFRESH_TOKEN_SECRET_KEY 0).isOk = true := by
  have h := wrong_kind_parse_fails s0 [] [] none 0 0
  exact ⟨h.1, h.2.1, h.2.2.1 (by decide) (by decide), h.2.2.2 (by decide) (by decide)⟩

/-- C2 counterexample: the claim quantifies over every claims mapping
containing the subject, but for a mapping that additionally carries an
`aud` claim the program's parse fails immediately after issuance
(python-jose validates a present `aud` claim against the `audience`
argument, which this code never passes, raising `JWTClaimsError
"Invalid audience"`), so the token does not parse even though it contains
subject "42" and is fresh. -/
theorem issued_token_with_audience_cex :
    dictGet [("sub", JValue.jstr "42"), ("aud", JValue.jstr "x")] "sub" =
      some (.jstr "42") ∧
    (get_token_payload s0
      (create_access_token s0 [("sub", .jstr "42"), ("aud", .jstr "x")] none 0)
      TokenType.access 0).isOk = false := by
  decide

/-- C2 (amended): for every claims mapping containing subject `sub` whose
claims pass jose's default registered-claim validation (no `aud` or
`at_hash` claim, string `sub` and `jti`, integer-convertible `iat`,
non-future `nbf`), the token produced by `create_access_token` parses with
`get_token_payload` at expected kind ACCESS at any verification instant not
beyond the TTL, and the parsed payload carries the same subject claim. -/
theorem issued_access_token_parses_with_same_subject (s : AuthSettings) (d : Payload)
    (sub : String) (now v : Int) (hsub : dictGet d "sub" = some (.jstr sub))
    (hreg : registeredClaimsOk d v = true)
    (hv : v ≤ now + s.ACCESS_TOKEN_EXPIRE_MINUTES * 60) :
    (get_token_payload s (create_access_token s d none now) TokenType.access v).isOk = true ∧
    payloadSubject (get_token_payload s (create_access_token s d none now) TokenType.access v) =
      some (.jstr sub) := by
  have hok := get_token_payload_create_access_ok s d none now v hreg
    (by simpa [accessTokenDelta] using hv)
  rw [hok]
  refine ⟨rfl, ?_⟩
  show dictGet (create_access_token s d none now).payload "sub" = some (.jstr sub)
  rw [create_access_token_other_key s d none now "sub" (by decide) (by decide), hsub]

theorem issued_access_token_parses_with_same_subject_witness :
    (get_token_payload s0 (create_access_token s0 [("sub", .jstr "42")] none 0)
      TokenType.access 0).isOk = true ∧
    payloadSubject (get_token_payload s0
      (create_access_token s0 [("sub", .jstr "42")] none 0) TokenType.access 0) =
      some (.jstr "42") := by
  have h := issued_access_token_parses_with_same_subject s0 [("sub", .jstr "42")] "42" 0 0
    (by decide) (by decide) (by decide)
  exact h

/-- C7 counterexample, both directions. First conjunct: a token requested
with time-to-live 0 still parses one second after issuance — Python tests
`if expires_delta:` by truthiness and `timedelta(0)` is falsy, so the token
is actually issued with the default TTL, refuting "fails when verified more
than t after issuance" at t = 0. Second conjunct: a token whose extra claims
include `aud` fails to parse well before issuance plus t (jose rejects the
audience claim), refuting "succeeds strictly before issuance plus t" for
arbitrary payloads. -/
theorem ttl_zero_or_audience_cex :
    (get_token_payload s0 (create_access_token s0 [] (some 0) 0)
      TokenType.access 1).isOk = true ∧
    (get_token_payload s0 (create_access_token s0 [("aud", .jstr "x")] (some 10) 0)
      TokenType.access 5).isOk = false := by
  decide

/-- C7 (amended): a token issued with a nonzero time-to-live `t` (a zero
timedelta is falsy, so the code substitutes the configured default TTL for
it) fails to parse at any clock time more than `t` after issuance (expiry
check), and, when its extra claims pass jose's default registered-claim
validation, parses successfully at any clock time up to (in particular
strictly before) issuance plus `t`, given the correct kind and signature. -/
theorem token_expiry_window (s : AuthSettings) (data : Payload) (t now v : Int)
    (ht : t ≠ 0) :
    (now + t < v →
      (get_token_payload s (create_access_token s data (some t) now)
        TokenType.access v).isOk = false) ∧
    (registeredClaimsOk data v = true → v ≤ now + t →
      (get_token_payload s (create_access_token s data (some t) now)
        TokenType.access v).isOk = true) := by
  constructor
  · intro h
    apply get_token_payload_create_access_expired s data (some t) now v
    rw [accessTokenDelta_nonzero s t ht]
    exact h
  · intro hreg h
    rw [get_token_payload_create_access_ok s data (some t) now v hreg
      (by rw [accessTokenDelta_nonzero s t ht]; exact h)]
    rfl

theorem token_expiry_window_witness :
    (get_token_payload s0 (create_access_token s0 [] (some 10) 0)
      TokenType.access 11).isOk = false ∧
    (get_token_payload s0 (create_access_token s0 [] (some 10) 0)
      TokenType.access 5).isOk = true := by
  exact ⟨(token_expiry_window s0 [] 10 0 11 (by decide)).1 (by decide),
    (token_expiry_window s0 [] 10 0 5 (by decide)).2 (by decide) (by decide)⟩

/-- C3: for a stored user whose active flag is false, login with the correct
password fails with the 403 "Inactive user" error (AccountDisabled), while
login with a wrong password for the same user fails with the 401 credentials
error (InvalidCredentials), not the disabled error: the disabled check runs
strictly after password verification succeeds. -/
theorem disabled_account_login_order (s : AuthSettings) (db : UserStore) (ident : String)
    (u : User) (pw pw2 : String) (now : Int)
    (hfind : get_user_by_email db ident = some u ∨
      (get_user_by_email db ident = none ∧ get_user_by_username db ident = some u))
    (hinactive : u.is_active = false)
    (hgood : verify_password pw u.hashed_password = .ok true)
    (hbad : verify_password pw2 u.hashed_password = .ok false) :
    login_user s db ⟨ident, pw⟩ now = .error (.httpError 403 "Inactive user") ∧
    login_user s db ⟨ident, pw2⟩ now =
      .error (.httpError 401 "Incorrect email/username or password") := by
  unfold login_user authenticate_user
  rcases hfind with h | ⟨h1, h2⟩
  · simp [h, hgood, hbad, hinactive]
  · simp [h1, h2, hgood, hbad, hinactive]

theorem disabled_account_login_order_witness :
    login_user s0 [userC3] ⟨"d@x.com", "password123"⟩ 0 =
      .error (.httpError 403 "Inactive user") ∧
    login_user s0 [userC3] ⟨"d@x.com", "wrongpass"⟩ 0 =
      .error (.httpError 401 "Incorrect email/username or password") := by
  exact disabled_account_login_order s0 [userC3] "d@x.com" userC3 "password123" "wrongpass" 0
    (Or.inl (by decide)) (by decide) (by decide) (by decide)

/-- C4 counterexample: the claim says `verify` returns false on a malformed
digest rather than raising; on the concrete malformed digest "nothash" the
code raises (passlib `CryptContext.verify` raises `UnknownHashError`, a
`ValueError` subclass, when the hash cannot be identified, and
`verify_password` catches nothing), and in particular does not return
false. -/
theorem verify_password_malformed_digest_cex :
    verify_password "password" "nothash" = .error .unknownHashError ∧
    verify_password "password" "nothash" ≠ .ok false := by
  decide

/-- C4 (amended): on a digest that is not a well-formed output of the hasher,
`verify_password` raises (propagates the `UnknownHashError`) rather than
returning false; on well-formed digests its only outcomes are true and
false. -/
theorem verify_password_outcomes (p d : String) :
    (isBcryptDigest d = false → verify_password p d = .error .unknownHashError) ∧
    (isBcryptDigest d = true →
      verify_password p d = .ok true ∨ verify_password p d = .ok false) := by
  constructor
  · intro h
    simp [verify_password, cryptContextVerify, h]
  · intro h
    by_cases hd : d = get_password_hash p
    · subst hd
      left
      simp [verify_password, cryptContextVerify, h]
    · right
      simp [verify_password, cryptContextVerify, h, hd]

theorem verify_password_outcomes_witness :
    verify_password "pw" "plainhash" = .error .unknownHashError ∧
    (verify_password "pw" (get_password_hash "pw") = .ok true ∨
      verify_password "pw" (get_password_hash "pw") = .ok false) := by
  exact ⟨(verify_password_outcomes "pw" "plainhash").1 (by decide),
    (verify_password_outcomes "pw" (get_password_hash "pw")).2 (by decide)⟩

/-- C5 counterexample: on a token whose signature and type claim are valid
for the expected kind ACCESS but whose subject claim is absent,
`get_token_payload` does not fail: it returns the payload. The subject
checks live in the callers, not in the token codec. -/
theorem get_token_payload_no_subject_cex :
    get_token_payload s0 tokenNoSub TokenType.access 0 = .ok [("type", .jstr "access")] ∧
    (get_token_payload s0 tokenNoSub TokenType.access 0).isOk = true := by
  decide

/-- C5 (amended): the token codec itself fails when the subject claim is
present but not a string — python-jose's decode raises `JWTClaimsError
"Subject must be a string"` before any payload is returned, for either
expected kind — but performs no other subject validation: with the subject
absent or the empty string it returns the payload (see the counterexample),
and the consuming flows reject every token whose subject claim is absent,
not a string, or the empty string with their credentials errors. -/
theorem subject_checks_split (s : AuthSettings) (db : UserStore)
    (tok : Token) (now : Int) :
    (∀ v2, dictGet tok.payload "sub" = some v2 → nonStringValue v2 = true →
      (get_token_payload s tok TokenType.access now).isOk = false ∧
      (get_token_payload s tok TokenType.refresh now).isOk = false) ∧
    (badSubjectClaim (dictGet tok.payload "sub") = true →
      refresh_access_token s db tok now = .error refreshCredentialsException ∧
      get_current_user s db tok now = .error credentialsException) := by
  constructor
  · intro v2 hs hns
    have hcv : jwtClaimsValid tok.payload now = false := by
      unfold jwtClaimsValid registeredClaimsOk
      rw [hs]
      cases v2 with
      | jstr x => simp [nonStringValue] at hns
      | jint n => simp
      | jnull => simp
    exact ⟨get_token_payload_invalid_claims s tok TokenType.access now hcv,
      get_token_payload_invalid_claims s tok TokenType.refresh now hcv⟩
  intro h
  constructor
  · unfold refresh_access_token
    cases hgp : get_token_payload s tok TokenType.refresh now with
    | error e => rfl
    | ok p =>
      have hp : p = tok.payload := get_token_payload_ok_payload s tok _ now p hgp
      subst hp
      cases hs : dictGet tok.payload "sub" with
      | none => simp [hs]
      | some v =>
        cases v with
        | jstr x =>
          rw [hs] at h
          simp only [badSubjectClaim, beq_iff_eq] at h
          subst h
          simp [hs, uuidOfString]
        | jint n => simp [hs]
        | jnull => simp [hs]
  · unfold get_current_user
    cases hgp : get_token_payload s tok TokenType.access now with
    | error e => rfl
    | ok p =>
      have hp : p = tok.payload := get_token_payload_ok_payload s tok _ now p hgp
      subst hp
      cases hs : dictGet tok.payload "sub" with
      | none => simp [hs]
      | some v =>
        cases v with
        | jstr x =>
          rw [hs] at h
          simp only [badSubjectClaim, beq_iff_eq] at h
          subst h
          simp [hs, uuidOfString]
        | jint n => simp [hs]
        | jnull => simp [hs]

theorem subject_checks_split_witness :
    (get_token_payload s0 tokenIntSub TokenType.access 0).isOk = false ∧
    refresh_access_token s0 [] tokenNoSub 0 = .error refreshCredentialsException ∧
    get_current_user s0 [] tokenNoSub 0 = .error credentialsException := by
  have ha := (subject_checks_split s0 [] tokenIntSub 0).1 (.jint 5) (by decide) (by decide)
  have hb := (subject_checks_split s0 [] tokenNoSub 0).2 (by decide)
  exact ⟨ha.1, hb.1, hb.2⟩

theorem get_current_user_error_eq (s : AuthSettings) (db : UserStore) (tok : Token)
    (now : Int) (e : PyErr) (he : get_current_user s db tok now = .error e) :
    e = credentialsException := by
  unfold get_current_user at he
  cases hgp : get_token_payload s tok TokenType.access now with
  | error e2 => simp [hgp] at he; exact he.symm
  | ok p =>
    cases hs : dictGet p "sub" with
    | none => simp [hgp, hs] at he; exact he.symm
    | some v =>
      cases v with
      | jint n => simp [hgp, hs] at he; exact he.symm
      | jnull => simp [hgp, hs] at he; exact he.symm
      | jstr x =>
        cases hu : uuidOfString x with
        | none => simp [hgp, hs, hu] at he; exact he.symm
        | some n =>
          cases hdb : get_user_by_id db n with
          | none => simp [hgp, hs, hu, hdb] at he; exact he.symm
          | some u => simp [hgp, hs, hu, hdb] at he

theorem login_user_ok_shape (s : AuthSettings) (db : UserStore) (l : UserLogin)
    (now : Int) (tr : TokenResponse) (h : login_user s db l now = .ok tr) :
    ∃ u : User, tr = generate_tokens_for_user s u now := by
  unfold login_user at h
  cases ha : authenticate_user db l.email_or_username l.password with
  | error e => simp [ha] at h
  | ok uo =>
    cases uo with
    | none => simp [ha] at h
    | some user =>
      by_cases hact : user.is_active = false
      · simp [ha, hact] at h
      · simp [ha, hact] at h
        exact ⟨user, h.symm⟩

theorem refresh_ok_shape (s : AuthSettings) (db : UserStore) (tok : Token) (now : Int)
    (tr : TokenResponse) (h : refresh_access_token s db tok now = .ok tr) :
    tr.refresh_token = tok ∧ tr.token_type = "bearer" ∧
    ∃ u : User, tr.access_token = create_access_token s
      [("sub", .jstr (toString u.id)), ("email", .jstr u.email)]
      (some (s.ACCESS_TOKEN_EXPIRE_MINUTES * 60)) now := by
  unfold refresh_access_token at h
  cases hgp : get_token_payload s tok TokenType.refresh now with
  | error e => simp [hgp] at h
  | ok p =>
    cases hs : dictGet p "sub" with
    | none => simp [hgp, hs] at h
    | some v =>
      cases v with
      | jint n => simp [hgp, hs] at h
      | jnull => simp [hgp, hs] at h
      | jstr x =>
        by_cases hx : x = ""
        · simp [hgp, hs, hx] at h
        · cases hu : uuidOfString x with
          | none => simp [hgp, hs, hx, hu] at h
          | some n =>
            cases hdb : get_user_by_id db n with
            | none => simp [hgp, hs, hx, hu, hdb] at h
            | some user =>
              by_cases hact : user.is_active = false
              · simp [hgp, hs, hx, hu, hdb, hact] at h
              · simp [hgp, hs, hx, hu, hdb, hact] at h
                subst h
                exact ⟨rfl, rfl, user, rfl⟩

/-- C8: in the identify flow every failure to establish identity (token parse
error, missing or malformed subject, no user record) is the 401 credentials
error (Unauthenticated); a valid token whose resolved user is disabled yields
the 403 "Inactive user" error (Forbidden), a distinct error class produced
only after the user record has been resolved. -/
theorem identify_error_classes (s : AuthSettings) (db : UserStore) (tok : Token)
    (now : Int) :
    (∀ e, get_current_user s db tok now = .error e → e = credentialsException) ∧
    (∀ u, get_current_user s db tok now = .ok u → u.is_active = false →
      identify_user s db tok now = .error (.httpError 403 "Inactive user")) ∧
    (identify_user s db tok now = .error (.httpError 403 "Inactive user") →
      ∃ u, get_current_user s db tok now = .ok u ∧ u.is_active = false) := by
  refine ⟨?_, ?_, ?_⟩
  · intro e he
    exact get_current_user_error_eq s db tok now e he
  · intro u hu hin
    unfold identify_user
    rw [hu]
    simp [get_current_active_user, hin]
  · intro hid
    unfold identify_user at hid
    cases hgc : get_current_user s db tok now with
    | error e =>
      rw [hgc] at hid
      have hce := get_current_user_error_eq s db tok now e hgc
      subst hce
      simp [credentialsException] at hid
    | ok u =>
      rw [hgc] at hid
      by_cases hact : u.is_active = false
      · exact ⟨u, rfl, hact⟩
      · simp [get_current_active_user, hact] at hid

theorem identify_error_classes_witness :
    get_current_user s0 [userC8] tokenC8 0 = .ok userC8 ∧
    identify_user s0 [userC8] tokenC8 0 = .error (.httpError 403 "Inactive user") := by
  have h := identify_error_classes s0 [userC8] tokenC8 0
  exact ⟨by decide, h.2.1 userC8 (by decide) (by decide)⟩

/-- C9: the register flow checks email uniqueness before username uniqueness:
with an already-taken email registration fails with "Email already
registered" whatever the username; with a fresh email but a taken username it
fails with "Username already taken"; in both cases before any insert, leaving
the committed store exactly as the concurrent environment left it. -/
theorem register_check_order (db extra : UserStore) (data : UserRegister) (newId : Nat) :
    ((get_user_by_email db data.email).isSome = true →
      register_user db extra data newId =
        (.error (.httpError 400 "Email already registered"), db ++ extra)) ∧
    (get_user_by_email db data.email = none →
      (get_user_by_username db data.username).isSome = true →
      register_user db extra data newId =
        (.error (.httpError 400 "Username already taken"), db ++ extra)) := by
  constructor
  · intro h
    unfold register_user
    cases he : get_user_by_email db data.email with
    | none => rw [he] at h; simp at h
    | some u => rfl
  · intro h1 h2
    unfold register_user
    rw [h1]
    cases hu : get_user_by_username db data.username with
    | none => rw [hu] at h2; simp at h2
    | some u => rfl

theorem register_check_order_witness :
    register_user [userC9] [] ⟨"a@x.com", "bob", "pw123456", none⟩ 2 =
      (.error (.httpError 400 "Email already registered"), [userC9] ++ []) ∧
    register_user [userC9] [] ⟨"b@x.com", "alice", "pw123456", none⟩ 2 =
      (.error (.httpError 400 "Username already taken"), [userC9] ++ []) := by
  exact ⟨(register_check_order [userC9] [] ⟨"a@x.com", "bob", "pw123456", none⟩ 2).1
      (by decide),
    (register_check_order [userC9] [] ⟨"b@x.com", "alice", "pw123456", none⟩ 2).2
      (by decide) (by decide)⟩

/-- C10: registration is atomic with respect to the user store: on every
failure path (email taken, username taken, or a uniqueness conflict first
discovered at insert time and rolled back) the committed store afterwards is
exactly the pre-checked rows plus the concurrently committed rows — the
failed registration itself persists nothing. -/
theorem failed_registration_leaves_store_unchanged (db extra : UserStore)
    (data : UserRegister) (newId : Nat) (e : PyErr) (db2 : UserStore)
    (h : register_user db extra data newId = (.error e, db2)) : db2 = db ++ extra := by
  unfold register_user at h
  cases he : get_user_by_email db data.email with
  | some u => rw [he] at h; injection h with h1 h2; exact h2.symm
  | none =>
    simp only [he] at h
    cases hu : get_user_by_username db data.username with
    | some u => rw [hu] at h; injection h with h1 h2; exact h2.symm
    | none =>
      simp only [hu] at h
      split at h
      · injection h with h1 h2
        exact h2.symm
      · injection h with h1 h2
        cases h1

theorem failed_registration_leaves_store_unchanged_witness :
    (register_user [] [userC9] ⟨"a@x.com", "carol", "pw123456", none⟩ 2).2 =
      [] ++ [userC9] := by
  apply failed_registration_leaves_store_unchanged [] [userC9]
    ⟨"a@x.com", "carol", "pw123456", none⟩ 2
    (.httpError 400 "User with this email or username already exists")
  decide

/-- C6 counterexample: a successful refresh performed at the same clock
instant as the login reproduces a byte-identical access token (the encoding
is deterministic in its claims and carries no issued-at or nonce claim), so
the claim that every successful refresh returns a distinct access token
fails at this concrete input. The refresh token is echoed unchanged. -/
theorem refresh_same_instant_access_token_cex :
    loginResultC6.isOk = true ∧ refreshResultC6.isOk = true ∧
    (okTokenResponse refreshResultC6).refresh_token =
      (okTokenResponse loginResultC6).refresh_token ∧
    (okTokenResponse refreshResultC6).access_token =
      (okTokenResponse loginResultC6).access_token := by
  decide

/-- C6 (amended): a successful refresh echoes the presented refresh token
back unchanged and mints only an access token; the minted access token
differs from the access token issued at login whenever the two are minted at
different clock instants (their expiry claims differ) — at the very same
instant the deterministic encoding reproduces the identical token string. -/
theorem refresh_echoes_and_rotates_access (s : AuthSettings) (db : UserStore)
    (l : UserLogin) (now now2 : Int) (tr tr2 : TokenResponse)
    (h1 : login_user s db l now = .ok tr)
    (h2 : refresh_access_token s db tr.refresh_token now2 = .ok tr2) :
    tr2.refresh_token = tr.refresh_token ∧ tr2.token_type = "bearer" ∧
    (now ≠ now2 → tr2.access_token ≠ tr.access_token) := by
  obtain ⟨u, rfl⟩ := login_user_ok_shape s db l now tr h1
  obtain ⟨hrt, htt, u2, hat⟩ :=
    refresh_ok_shape s db _ now2 tr2 h2
  refine ⟨hrt, htt, ?_⟩
  intro hne heq
  apply hne
  have e1 : dictGet tr2.access_token.payload "exp" =
      some (.jint (now2 + s.ACCESS_TOKEN_EXPIRE_MINUTES * 60)) := by
    rw [hat]
    simpa [accessTokenDelta_minutes] using
      create_access_token_exp s _ (some (s.ACCESS_TOKEN_EXPIRE_MINUTES * 60)) now2
  have e2 : dictGet (generate_tokens_for_user s u now).access_token.payload "exp" =
      some (.jint (now + s.ACCESS_TOKEN_EXPIRE_MINUTES * 60)) := by
    show dictGet (create_access_token s _ (some (s.ACCESS_TOKEN_EXPIRE_MINUTES * 60))
      now).payload "exp" = _
    simpa [accessTokenDelta_minutes] using
      create_access_token_exp s _ (some (s.ACCESS_TOKEN_EXPIRE_MINUTES * 60)) now
  rw [heq, e2] at e1
  injection e1 with e3
  injection e3 with e4
  exact add_right_cancel e4

theorem refresh_echoes_and_rotates_access_witness :
    (okTokenResponse refreshResultC6b).refresh_token =
      (okTokenResponse loginResultC6).refresh_token ∧
    (okTokenResponse refreshResultC6b).token_type = "bearer" ∧
    (okTokenResponse refreshResultC6b).access_token ≠
      (okTokenResponse loginResultC6).access_token := by
  have h1 : login_user s0 [userC6] ⟨"alice6", "password123"⟩ 0 =
      .ok (okTokenResponse loginResultC6) := by decide
  have h2 : refresh_access_token s0 [userC6]
      (okTokenResponse loginResultC6).refresh_token 1 =
      .ok (okTokenResponse refreshResultC6b) := by decide
  have h := refresh_echoes_and_rotates_access s0 [userC6] ⟨"alice6", "password123"⟩
    0 1 (okTokenResponse loginResultC6) (okTokenResponse refreshResultC6b) h1 h2
  exact ⟨h.1, h.2.1, h.2.2 (by decide)⟩
